import Mathlib

/-!
Shallow embedding of the parts of terraform-provider-alicloud that the
verified claims are about:

* `alicloud/service_alicloud_amqp_open.go` — the `DescribeAmqpVirtualHost`
  method of `AmqpOpenService` (parse resource id, build request map,
  retry-wrapped `DoRequest` call, jsonpath extraction, pagination).
* `vendor/github.com/aliyun/aliyun-log-go-sdk/client_interface.go` —
  `CreateNormalInterface` and `CreateTokenAutoUpdateClient`.
* `website/docs/r/vpc_traffic_mirror_filter_ingress_rule.html.markdown` —
  the documented import id format of the traffic mirror filter ingress rule.

Helper functions of the repository that are referenced but whose bodies are
not shipped in the source snapshot (`ParseResourceId`, `NeedRetry`,
`incrementalWait`, `resource.Retry`, the error-message constants) are
modelled from the spec; each such definition carries a doc comment saying so.
-/

namespace Alicloud

/-- A decoded JSON value, i.e. a Go `interface` value as produced by
decoding an SDK response body into `map[string]interface` values. -/
inductive JsonVal where
  | str (s : String)
  | num (n : Int)
  | boolean (b : Bool)
  | null
  | arr (elems : List JsonVal)
  | obj (fields : List (String × JsonVal))

/-- A decoded JSON object, i.e. a Go `map[string]interface` value.
Represented as an association list with unique keys; lookups take the
first binding. -/
abbrev JsonObj := List (String × JsonVal)

/-- Go map indexing `o[key]`: `some v` when the key is present,
`none` when absent (Go would yield `nil`). -/
def lookupJson : JsonObj → String → Option JsonVal
  | [], _ => none
  | (k, v) :: rest, key => if k = key then some v else lookupJson rest key

/-- A raw error produced by the generated SDK client (`conn.DoRequest`):
an error code plus a message. -/
structure SdkError where
  code : String
  message : String

/-- A Go `error` value as it flows through the provider code paths that
the claims are about.  `wrap` is the result of `WrapError`, `wrapf` the
result of `WrapErrorf` (format constant plus the string arguments that
were interpolated; the raw response payload argument is not carried,
only its presence in the format). -/
inductive GoError where
  | sdk (e : SdkError)
  | invalidResourceId (id : String) (expected got : Nat)
  | jsonpathNotFound (path : String)
  | goErr (msg : String)
  | wrap (inner : GoError)
  | wrapf (inner : GoError) (fmtMsg : String) (args : List String)

/-- Whether an error is the result of `WrapError` or `WrapErrorf`. -/
def isWrapped : GoError → Bool
  | .wrap _ => true
  | .wrapf _ _ _ => true
  | _ => false

/-- Modelled from the spec: the `DefaultErrorMsg` format constant used by
`WrapErrorf` at line 51; its body is not in the source snapshot and only
its identity matters here. -/
def DefaultErrorMsg : String := "Resource action failed"

/-- Modelled from the spec: the `FailedGetAttributeMsg` format constant
used by `WrapErrorf` at line 55; its body is not in the source snapshot
and only its identity matters here. -/
def FailedGetAttributeMsg : String := "Getting resource attribute by path failed"

/-- Modelled from the spec: the `NotFoundWithResponse` format constant
used by `WrapErrorf` at lines 58 and 74; its body is not in the source
snapshot and only its identity matters here. -/
def NotFoundWithResponse : String := "NotFound with response"

/-- Modelled from the spec: the `AlibabaCloudSdkGoERROR` tag passed as a
context argument to `WrapErrorf` at line 51; its body is not in the
source snapshot and only its identity matters here. -/
def AlibabaCloudSdkGoERROR : String := "Alibaba Cloud SDK Go error"

/-- Modelled from the spec: `GetNotFoundMessage` renders a not-found
message for a product and a resource id. -/
def GetNotFoundMessage (product id : String) : String :=
  "The specified " ++ product ++ " " ++ id ++ " is not found."

/-- `strings.Split` on a single-character separator, over character
lists: splitting the empty list yields one empty part, and every
occurrence of the separator starts a new part. -/
def splitChars (sep : Char) : List Char → List (List Char)
  | [] => [[]]
  | c :: cs =>
    if c = sep then [] :: splitChars sep cs
    else
      match splitChars sep cs with
      | [] => [[c]]
      | h :: t => (c :: h) :: t

/-- Go `strings.Split(s, sep)` for a one-character separator. -/
def strSplit (sep : Char) (s : String) : List String :=
  (splitChars sep s.toList).map String.mk

/-- Modelled from the spec: `ParseResourceId` (referenced at line 23 but
not shipped in the source snapshot) splits the id on a colon and errors
unless the number of parts equals the expected length; on success it
returns the parts. -/
def ParseResourceId (id : String) (length : Nat) : Except GoError (List String) :=
  let parts := strSplit ':' id
  if parts.length = length then .ok parts
  else .error (.invalidResourceId id length parts.length)

/-- The documented export id of a VPC traffic mirror filter ingress rule:
the filter id and the rule id joined with a colon
(website/docs/r/vpc_traffic_mirror_filter_ingress_rule.html.markdown). -/
def composeTrafficMirrorRuleId (filterId ruleId : String) : String :=
  filterId ++ ":" ++ ruleId

/-- A value stored in the request map: the map holds both strings
(RegionId, InstanceId, NextToken) and integers (MaxResults). -/
inductive ReqVal where
  | s (v : String)
  | n (v : Nat)

/-- The request map passed to `conn.DoRequest` (insertion order kept). -/
abbrev Request := List (String × ReqVal)

/-- Go map assignment `req[k] = v`: replaces the first binding of `k`
when present, appends otherwise. -/
def setKey : Request → String → ReqVal → Request
  | [], k, v => [(k, v)]
  | (k', v') :: rest, k, v =>
    if k' = k then (k, v) :: rest else (k', v') :: setKey rest k v

/-- One SDK request as issued by `conn.DoRequest`: the action, the HTTP
method, the API version and the query map. -/
structure SdkCall where
  action : String
  method : String
  version : String
  query : Request

/-- `jsonpath.Get` for a two-segment path such as `$.Data.VirtualHosts`:
looks up the first key, requires an object there, then looks up the
second key; any miss is a path-resolution error. -/
def jsonpathGet2 (k1 k2 : String) (response : JsonObj) : Except String JsonVal :=
  match lookupJson response k1 with
  | some (.obj inner) =>
    match lookupJson inner k2 with
    | some v => .ok v
    | none => .error ("unknown key " ++ k2)
  | _ => .error ("unknown key " ++ k1)

/-- The checked type assertion at line 67,
`nextToken, ok := response["NextToken"].(string)`: `some t` exactly when
the key is present with a string value, `none` when it is absent or of
another type. -/
def nextTokenStr (response : JsonObj) : Option String :=
  match lookupJson response "NextToken" with
  | some (.str t) => some t
  | _ => none

/-- The range loop at lines 60 to 65: scan the virtual host list for the
first element whose `Name` equals the target name.  The unchecked Go
type assertions panic when an element is not a map or its `Name` entry
is missing or not a string; that is the `.error` outcome. -/
def findByName (target : String) : List JsonVal → Except Unit (Option JsonObj)
  | [] => .ok none
  | .obj m :: rest =>
    match lookupJson m "Name" with
    | some (.str s) => if s = target then .ok (some m) else findByName target rest
    | _ => .error ()
  | _ :: _ => .error ()

/-- Modelled from the spec: `NeedRetry` (referenced at line 41 but not
shipped in the source snapshot) classifies SDK errors as retryable
(throttling or conflict) versus terminal, by error code. -/
def NeedRetry (e : SdkError) : Bool :=
  e.code = "Throttling" || e.code = "Throttling.User" ||
    e.code = "ServiceUnavailable" || e.code = "OperationConflict"

/-- Modelled from the spec: the wait issued by
`incrementalWait(3*time.Second, 3*time.Second)` before retry number
`attempt` (counted from 0), in seconds: it starts at the first duration
and grows by the increment on every retry. -/
def incrementalWaitSec (first increase attempt : Nat) : Nat :=
  first + increase * attempt

/-- Modelled from the spec: `resource.Retry(timeout, f)` around the
`conn.DoRequest` call at lines 38 to 48, with time accounted in seconds.
`s` gives the outcome of the n-th `DoRequest` attempt.  A successful
attempt ends the loop; an error classified retryable by `NeedRetry`
waits the incremental backoff and retries while budget remains; any
other error aborts at once.  On an exhausted budget the last error is
returned. -/
def retryGo (s : Nat → Except SdkError JsonObj) (remaining attempt : Nat) :
    Except SdkError JsonObj :=
  match s attempt with
  | .ok r => .ok r
  | .error e =>
    if NeedRetry e then
      if h : incrementalWaitSec 3 3 attempt < remaining then
        retryGo s (remaining - incrementalWaitSec 3 3 attempt) (attempt + 1)
      else .error e
    else .error e
termination_by remaining
decreasing_by
  simp only [incrementalWaitSec] at h ⊢
  omega

/-- The number of `DoRequest` attempts that `retryGo` performs. -/
def retryCalls (s : Nat → Except SdkError JsonObj) (remaining attempt : Nat) : Nat :=
  match s attempt with
  | .ok _ => 1
  | .error e =>
    if NeedRetry e then
      if h : incrementalWaitSec 3 3 attempt < remaining then
        1 + retryCalls s (remaining - incrementalWaitSec 3 3 attempt) (attempt + 1)
      else 1
    else 1
termination_by remaining
decreasing_by
  simp only [incrementalWaitSec] at h ⊢
  omega

/-- The observable outcome of `DescribeAmqpVirtualHost`, mirroring the Go
pair of named return values `(object, err)`.  `panics` is an unchecked
type assertion failing on ill-typed response data; `outOfTrace` means the
finite trace of modelled responses ended before the function returned
(the remaining behaviour is not determined by the trace). -/
inductive DOut where
  | ret (object : Option JsonObj) (err : Option GoError)
  | panics
  | outOfTrace

/-- What one iteration of the `for` loop at lines 34 to 72 decides:
either the function returns (`stop`) or the loop continues with the
updated request map (`next`, after `request["NextToken"] = nextToken`). -/
inductive StepRes where
  | stop (out : DOut)
  | next (nextReq : Request)

/-- One iteration of the `for` loop of `DescribeAmqpVirtualHost`
(lines 34 to 72), given the outcome `page` of the retry-wrapped
`DoRequest` call for the current request:
* a final request error is wrapped with the id, the action and the SDK
  tag (line 51);
* the jsonpath `$.Data.VirtualHosts` is extracted (lines 53 to 56);
* an empty list yields the not-found error (lines 57 to 59);
* otherwise the list is scanned for the target name (lines 60 to 65);
* with no match, a present non-empty string `NextToken` continues the
  loop with the updated request (lines 67 to 71), anything else breaks
  to lines 73 to 76: not-found when `idExist` is false, otherwise the
  naked return of the zero values. -/
def describeStep (id targetName : String) (request : Request) (idExist : Bool)
    (page : Except SdkError JsonObj) : StepRes :=
  match page with
  | .error e =>
    .stop (.ret none (some (.wrapf (.sdk e) DefaultErrorMsg
      [id, "ListVirtualHosts", AlibabaCloudSdkGoERROR])))
  | .ok response =>
    match jsonpathGet2 "Data" "VirtualHosts" response with
    | .error _ =>
      .stop (.ret none (some (.wrapf (.jsonpathNotFound "$.Data.VirtualHosts")
        FailedGetAttributeMsg [id, "$.Data.VirtualHosts"])))
    | .ok (.arr l) =>
      if l.length < 1 then
        .stop (.ret none (some (.wrapf (.goErr (GetNotFoundMessage "Amqp" id))
          NotFoundWithResponse [])))
      else
        match findByName targetName l with
        | .error _ => .stop .panics
        | .ok (some m) => .stop (.ret (some m) none)
        | .ok none =>
          match nextTokenStr response with
          | some t =>
            if t = "" then
              .stop (if idExist then .ret none none
                else .ret none (some (.wrapf (.goErr (GetNotFoundMessage "Amqp" id))
                  NotFoundWithResponse [])))
            else .next (setKey request "NextToken" (.s t))
          | none =>
            .stop (if idExist then .ret none none
              else .ret none (some (.wrapf (.goErr (GetNotFoundMessage "Amqp" id))
                NotFoundWithResponse [])))
    | .ok _ => .stop .panics

/-- The `for` loop of `DescribeAmqpVirtualHost` over a finite trace of
per-page outcomes (each element is the final result of one retry-wrapped
`DoRequest` call).  Returns the list of SDK calls issued, in order, and
the outcome. -/
def describeLoop (id targetName : String) (request : Request) (idExist : Bool) :
    List (Except SdkError JsonObj) → List SdkCall × DOut
  | [] => ([], .outOfTrace)
  | page :: rest =>
    let call : SdkCall := ⟨"ListVirtualHosts", "GET", "2019-12-12", request⟩
    match describeStep id targetName request idExist page with
    | .stop out => ([call], out)
    | .next req' =>
      let n := describeLoop id targetName req' idExist rest
      (call :: n.1, n.2)

/-- `AmqpOpenService.DescribeAmqpVirtualHost` (lines 16 to 77).
`regionId` is the client region; `clientErr` is the outcome of
`NewOnsproxyClient` (`some e` when construction failed); `pages` is the
trace of per-page request outcomes.  Mirrors the source order: client
construction, id parse, request construction (RegionId, InstanceId from
the first id part, MaxResults 100), then the page loop with `idExist`
initially false.  The list accessors on `parts` never hit their defaults
because `ParseResourceId` succeeds only with exactly 2 parts. -/
def DescribeAmqpVirtualHost (regionId : String) (clientErr : Option GoError)
    (id : String) (pages : List (Except SdkError JsonObj)) : List SdkCall × DOut :=
  match clientErr with
  | some e => ([], .ret none (some (.wrap e)))
  | none =>
    match ParseResourceId id 2 with
    | .error e => ([], .ret none (some (.wrap e)))
    | .ok parts =>
      let request : Request :=
        [("RegionId", .s regionId), ("InstanceId", .s (parts.headD "")),
          ("MaxResults", .n 100)]
      describeLoop id (parts.getD 1 "") request false pages

/-- The credentials fetched by one call of a `UpdateTokenFunction`
(client_interface.go line 18); the expire time is modelled as a natural
timestamp. -/
structure TokenFetch where
  accessKeyID : String
  accessKeySecret : String
  securityToken : String
  expireTime : Nat

/-- The `Client` value built by `CreateNormalInterface`
(client_interface.go lines 9 to 16). -/
structure Client where
  Endpoint : String
  AccessKeyID : String
  AccessKeySecret : String
  SecurityToken : String

/-- `CreateNormalInterface` (client_interface.go lines 9 to 16). -/
def CreateNormalInterface (endpoint accessKeyID accessKeySecret securityToken : String) :
    Client :=
  ⟨endpoint, accessKeyID, accessKeySecret, securityToken⟩

/-- The `TokenAutoUpdateClient` as populated at client_interface.go
lines 28 to 37.  The token update function is modelled by the outcome of
its first call; the shutdown channel and the background
`flushSTSToken` goroutine are concurrency and are not modelled.  Wait
intervals are in seconds. -/
structure TokenAutoUpdateClient where
  logClient : Client
  tokenUpdateFunc : Except GoError TokenFetch
  maxTryTimes : Nat
  waitIntervalMin : Nat
  waitIntervalMax : Nat
  updateTokenIntervalMin : Nat
  nextExpire : Nat

/-- `CreateTokenAutoUpdateClient` (client_interface.go lines 23 to 40):
calls the token update function once; on error returns no client and
that error, otherwise builds the inner client from the fetched
credentials and fills the retry parameters. -/
def CreateTokenAutoUpdateClient (endpoint : String)
    (tokenUpdateFunc : Except GoError TokenFetch) :
    Except GoError TokenAutoUpdateClient :=
  match tokenUpdateFunc with
  | .error e => .error e
  | .ok t =>
    .ok ⟨CreateNormalInterface endpoint t.accessKeyID t.accessKeySecret t.securityToken,
      tokenUpdateFunc, 3, 1, 60, 1, t.expireTime⟩

/-! ### Helper lemmas -/

theorem data_append (a b : String) : (a ++ b).data = a.data ++ b.data := rfl

theorem mk_data (s : String) : String.mk s.data = s := rfl

theorem splitChars_ne_nil (sep : Char) (l : List Char) : splitChars sep l ≠ [] := by
  cases l with
  | nil => simp [splitChars]
  | cons c cs =>
    rw [splitChars]
    split
    · simp
    · split
      · simp
      · simp

theorem splitChars_no_sep (sep : Char) (l : List Char) (h : sep ∉ l) :
    splitChars sep l = [l] := by
  induction l with
  | nil => rfl
  | cons c cs ih =>
    rw [List.mem_cons, not_or] at h
    rw [splitChars, if_neg (fun hc => h.1 hc.symm), ih h.2]

theorem splitChars_append_sep (sep : Char) (l₁ l₂ : List Char) (h : sep ∉ l₁) :
    splitChars sep (l₁ ++ sep :: l₂) = l₁ :: splitChars sep l₂ := by
  induction l₁ with
  | nil => simp [splitChars]
  | cons c cs ih =>
    rw [List.mem_cons, not_or] at h
    rw [List.cons_append, splitChars, if_neg (fun hc => h.1 hc.symm),
      ih h.2]

theorem findByName_append (b : String) (l₁ l₂ : List JsonVal) (m : JsonObj)
    (hname : lookupJson m "Name" = some (.str b))
    (hbefore : ∀ x ∈ l₁, ∃ o s, x = JsonVal.obj o ∧
      lookupJson o "Name" = some (JsonVal.str s) ∧ s ≠ b) :
    findByName b (l₁ ++ JsonVal.obj m :: l₂) = .ok (some m) := by
  induction l₁ with
  | nil => simp [findByName, hname]
  | cons x xs ih =>
    obtain ⟨o, s, rfl, ho, hs⟩ := hbefore x (by simp)
    simp only [List.cons_append, findByName, ho, if_neg hs]
    exact ih (fun y hy => hbefore y (by simp [hy]))

/-- Every `stop` outcome of one loop iteration started with `idExist`
false is either a found object with no error, or no object with a
wrapped error. -/
theorem describeStep_stop_sound (id b : String) (req : Request)
    (page : Except SdkError JsonObj) (o : Option JsonObj) (e : Option GoError)
    (h : describeStep id b req false page = .stop (.ret o e)) :
    (∃ m, o = some m ∧ e = none) ∨
      (o = none ∧ ∃ er, e = some er ∧ isWrapped er = true) := by
  unfold describeStep at h
  repeat' split at h
  all_goals first
    | exact StepRes.noConfusion h
    | (injection h with h1; exact DOut.noConfusion h1)
    | (injection h with h1
       injection h1 with ho he
       subst ho
       subst he
       first
         | exact Or.inl ⟨_, rfl, rfl⟩
         | exact Or.inr ⟨rfl, _, rfl, rfl⟩)
    | simp_all

theorem describeLoop_ret_sound (id b : String)
    (pages : List (Except SdkError JsonObj)) :
    ∀ req o e, (describeLoop id b req false pages).2 = .ret o e →
      (∃ m, o = some m ∧ e = none) ∨
        (o = none ∧ ∃ er, e = some er ∧ isWrapped er = true) := by
  induction pages with
  | nil => intro req o e h; simp [describeLoop] at h
  | cons page rest ih =>
    intro req o e h
    rw [describeLoop] at h
    cases hstep : describeStep id b req false page with
    | stop out =>
      rw [hstep] at h
      simp only at h
      exact describeStep_stop_sound id b req page o e (by rw [hstep, h])
    | next req' =>
      rw [hstep] at h
      simp only at h
      exact ih req' o e h

/-- Bound on the attempts of the retry loop: each retry consumes at least
3 seconds of the remaining budget, so the number of `DoRequest` calls is
at most a third of the budget plus one. -/
theorem retryCalls_le (s : Nat → Except SdkError JsonObj) (remaining : Nat) :
    ∀ attempt, 3 * retryCalls s remaining attempt ≤ remaining + 3 := by
  induction remaining using Nat.strong_induction_on with
  | _ remaining IH =>
    intro attempt
    rw [retryCalls]
    split
    · omega
    · split
      · split
        · next h =>
          have hlt : remaining - incrementalWaitSec 3 3 attempt < remaining := by
            simp only [incrementalWaitSec] at h ⊢
            omega
          have hrec := IH _ hlt (attempt + 1)
          simp only [incrementalWaitSec] at h hrec ⊢
          omega
        · omega
      · omega

/-! ### Claim theorems -/

/-- Claim C1: for every id string that does not parse into exactly 2
parts, `DescribeAmqpVirtualHost` returns a nil object together with a
wrapped parse error, and issues no SDK request — the result carries an
empty call list and does not depend on the response trace. -/
theorem describe_parse_error_no_request
    (regionId id : String) (pages : List (Except SdkError JsonObj)) (e : GoError)
    (hparse : ParseResourceId id 2 = .error e) :
    DescribeAmqpVirtualHost regionId none id pages =
      ([], .ret none (some (.wrap e))) := by
  simp only [DescribeAmqpVirtualHost, hparse]

/-- Witness for C1: the one-part id "abc" yields the wrapped parse error
and no SDK call, even though a well-formed response page is available. -/
theorem describe_parse_error_no_request_witness :
    ParseResourceId "abc" 2 = .error (.invalidResourceId "abc" 2 1) ∧
    DescribeAmqpVirtualHost "cn-hangzhou" none "abc"
        [Except.ok [("Data", JsonVal.obj [("VirtualHosts", JsonVal.arr [])])]] =
      ([], .ret none (some (.wrap (.invalidResourceId "abc" 2 1)))) :=
  ⟨rfl, describe_parse_error_no_request "cn-hangzhou" "abc" _ _ rfl⟩

/-- Claim C3: in the call loop, an SDK error is retried (consuming the
incremental backoff wait from the remaining budget) exactly when
`NeedRetry` classifies it retryable; any other error aborts the attempt
at once; and the error returned to the caller is wrapped with the
resource id and the action name as context. -/
theorem retry_classified_and_error_wrapped :
    (∀ (s : Nat → Except SdkError JsonObj) (remaining attempt : Nat) (e : SdkError),
        s attempt = .error e → NeedRetry e = false →
        retryGo s remaining attempt = .error e) ∧
    (∀ (s : Nat → Except SdkError JsonObj) (remaining attempt : Nat) (e : SdkError),
        s attempt = .error e → NeedRetry e = true →
        incrementalWaitSec 3 3 attempt < remaining →
        retryGo s remaining attempt =
          retryGo s (remaining - incrementalWaitSec 3 3 attempt) (attempt + 1)) ∧
    (∀ (regionId id a b : String) (e : SdkError)
        (rest : List (Except SdkError JsonObj)),
        ParseResourceId id 2 = .ok [a, b] →
        (DescribeAmqpVirtualHost regionId none id (Except.error e :: rest)).2 =
          .ret none (some (.wrapf (.sdk e) DefaultErrorMsg
            [id, "ListVirtualHosts", AlibabaCloudSdkGoERROR]))) := by
  refine ⟨?_, ?_, ?_⟩
  · intro s remaining attempt e hs hn
    rw [retryGo, hs]
    simp [hn]
  · intro s remaining attempt e hs hn hw
    rw [retryGo, hs]
    simp only [hn, if_true]
    rw [dif_pos hw]
  · intro regionId id a b e rest hp
    simp only [DescribeAmqpVirtualHost, hp]
    rfl

/-- Witness for C3: a terminal error aborts at once, a throttling error
retries with 3 seconds of budget consumed, and a terminal request error
surfaces wrapped with the id and action. -/
theorem retry_classified_and_error_wrapped_witness :
    retryGo (fun _ => .error ⟨"InternalError", "boom"⟩) 10 0 =
      .error ⟨"InternalError", "boom"⟩ ∧
    retryGo (fun _ => .error ⟨"Throttling", "slow down"⟩) 10 0 =
      retryGo (fun _ => .error ⟨"Throttling", "slow down"⟩) 7 1 ∧
    (DescribeAmqpVirtualHost "cn-hangzhou" none "amqp-abc:vhost-1"
        [Except.error ⟨"InternalError", "boom"⟩]).2 =
      .ret none (some (.wrapf (.sdk ⟨"InternalError", "boom"⟩) DefaultErrorMsg
        ["amqp-abc:vhost-1", "ListVirtualHosts", AlibabaCloudSdkGoERROR])) :=
  ⟨retry_classified_and_error_wrapped.1 _ 10 0 _ rfl rfl,
   retry_classified_and_error_wrapped.2.1 _ 10 0 _ rfl rfl (by decide),
   retry_classified_and_error_wrapped.2.2 "cn-hangzhou" "amqp-abc:vhost-1"
     "amqp-abc" "vhost-1" _ _ rfl⟩

/-- Claim C4: every retry loop is bounded.  The describe retry consumes
at least 3 seconds of backoff per extra attempt, so a budget of
`remaining` seconds allows at most `remaining / 3 + 1` calls — with the
5-minute (300 second) cap of the source, at most 101; and the vendored
token-auto-update client is built with `maxTryTimes` 3 and wait
intervals bounded by 1 and 60 seconds. -/
theorem retry_loops_bounded :
    (∀ (s : Nat → Except SdkError JsonObj) (remaining attempt : Nat),
        3 * retryCalls s remaining attempt ≤ remaining + 3) ∧
    (∀ (s : Nat → Except SdkError JsonObj) (attempt : Nat),
        retryCalls s 300 attempt ≤ 101) ∧
    (∀ (endpoint : String) (t : TokenFetch), ∃ c,
        CreateTokenAutoUpdateClient endpoint (.ok t) = .ok c ∧
        c.maxTryTimes = 3 ∧ c.waitIntervalMin = 1 ∧ c.waitIntervalMax = 60) := by
  refine ⟨fun s r a => retryCalls_le s r a, fun s a => ?_, fun endpoint t =>
    ⟨_, rfl, rfl, rfl, rfl⟩⟩
  have := retryCalls_le s 300 a
  omega

/-- Claim C10: if the initial token fetch fails,
`CreateTokenAutoUpdateClient` returns no client and that error;
otherwise it returns a client whose inner client is
`CreateNormalInterface` applied to the fetched credentials, with
`maxTryTimes` 3, wait interval bounds 1 and 60 seconds, and `nextExpire`
the fetched expire time. -/
theorem create_token_auto_update_client_spec :
    (∀ (endpoint : String) (e : GoError),
        CreateTokenAutoUpdateClient endpoint (.error e) = .error e) ∧
    (∀ (endpoint : String) (t : TokenFetch),
        CreateTokenAutoUpdateClient endpoint (.ok t) =
          .ok ⟨CreateNormalInterface endpoint t.accessKeyID t.accessKeySecret
                t.securityToken, .ok t, 3, 1, 60, 1, t.expireTime⟩) :=
  ⟨fun _ _ => rfl, fun _ _ => rfl⟩

/-- Claim C2: for a well-formed 2-part id, `DescribeAmqpVirtualHost`
builds a request map holding exactly RegionId (the client region),
InstanceId (the first id part) and MaxResults 100, issues the GET action
`ListVirtualHosts` under API version 2019-12-12, and returns the first
element of the virtual-host list whose Name equals the second id part,
with no error.  The virtual-host list is given as `l₁` (the earlier
entries, none named `b`) followed by the match `m` and the tail `l₂`. -/
theorem describe_returns_first_match
    (regionId id a b : String) (response : JsonObj) (l₁ l₂ : List JsonVal)
    (m : JsonObj) (rest : List (Except SdkError JsonObj))
    (hid : ParseResourceId id 2 = .ok [a, b])
    (hjson : jsonpathGet2 "Data" "VirtualHosts" response =
      .ok (.arr (l₁ ++ JsonVal.obj m :: l₂)))
    (hname : lookupJson m "Name" = some (.str b))
    (hbefore : ∀ x ∈ l₁, ∃ o s, x = JsonVal.obj o ∧
      lookupJson o "Name" = some (JsonVal.str s) ∧ s ≠ b) :
    DescribeAmqpVirtualHost regionId none id (Except.ok response :: rest) =
      ([⟨"ListVirtualHosts", "GET", "2019-12-12",
          [("RegionId", .s regionId), ("InstanceId", .s a), ("MaxResults", .n 100)]⟩],
        .ret (some m) none) := by
  have hfind := findByName_append b l₁ l₂ m hname hbefore
  have hlen : ¬ ((l₁ ++ JsonVal.obj m :: l₂).length < 1) := by
    simp only [List.length_append, List.length_cons]
    omega
  simp only [DescribeAmqpVirtualHost, hid, List.getD_cons_succ,
    List.getD_cons_zero, List.headD_cons]
  rw [describeLoop]
  simp only [describeStep, hjson, if_neg hlen, hfind]

/-- Witness for C2: with id `amqp-abc:vh2` and a page listing `vh1` then
`vh2`, the second entry is returned with no error and the single issued
call carries exactly the three request fields. -/
theorem describe_returns_first_match_witness :
    DescribeAmqpVirtualHost "cn-hangzhou" none "amqp-abc:vh2"
        [Except.ok [("Data", JsonVal.obj [("VirtualHosts", JsonVal.arr
          [JsonVal.obj [("Name", JsonVal.str "vh1")],
           JsonVal.obj [("Name", JsonVal.str "vh2")]])])]] =
      ([⟨"ListVirtualHosts", "GET", "2019-12-12",
          [("RegionId", .s "cn-hangzhou"), ("InstanceId", .s "amqp-abc"),
            ("MaxResults", .n 100)]⟩],
        .ret (some [("Name", JsonVal.str "vh2")]) none) :=
  describe_returns_first_match "cn-hangzhou" "amqp-abc:vh2" "amqp-abc" "vh2" _
    [JsonVal.obj [("Name", JsonVal.str "vh1")]] [] [("Name", JsonVal.str "vh2")] []
    rfl rfl rfl
    (by
      intro x hx
      simp only [List.mem_singleton] at hx
      exact ⟨[("Name", JsonVal.str "vh1")], "vh1", hx, rfl, by decide⟩)

/-- Claim C5: after a successful response, the jsonpath
`$.Data.VirtualHosts` is extracted; a missing path yields the
failed-get-attribute error naming that path, and an empty extracted list
yields the not-found error for the id — in both cases with an empty
returned object. -/
theorem describe_jsonpath_missing_or_empty :
    (∀ (regionId id a b : String) (response : JsonObj) (msg : String)
        (rest : List (Except SdkError JsonObj)),
        ParseResourceId id 2 = .ok [a, b] →
        jsonpathGet2 "Data" "VirtualHosts" response = .error msg →
        (DescribeAmqpVirtualHost regionId none id (Except.ok response :: rest)).2 =
          .ret none (some (.wrapf (.jsonpathNotFound "$.Data.VirtualHosts")
            FailedGetAttributeMsg [id, "$.Data.VirtualHosts"]))) ∧
    (∀ (regionId id a b : String) (response : JsonObj)
        (rest : List (Except SdkError JsonObj)),
        ParseResourceId id 2 = .ok [a, b] →
        jsonpathGet2 "Data" "VirtualHosts" response = .ok (.arr []) →
        (DescribeAmqpVirtualHost regionId none id (Except.ok response :: rest)).2 =
          .ret none (some (.wrapf (.goErr (GetNotFoundMessage "Amqp" id))
            NotFoundWithResponse []))) := by
  constructor
  · intro regionId id a b response msg rest hp hj
    simp only [DescribeAmqpVirtualHost, hp]
    rw [describeLoop]
    simp only [describeStep, hj]
  · intro regionId id a b response rest hp hj
    simp only [DescribeAmqpVirtualHost, hp]
    rw [describeLoop]
    simp only [describeStep, hj]
    rfl

/-- Witness for C5: a response without a Data object yields the
failed-get-attribute error, and a response with an empty virtual-host
list yields the not-found error; both with no object. -/
theorem describe_jsonpath_missing_or_empty_witness :
    (DescribeAmqpVirtualHost "cn-hangzhou" none "amqp-abc:vh1"
        [Except.ok [("Code", JsonVal.str "200")]]).2 =
      .ret none (some (.wrapf (.jsonpathNotFound "$.Data.VirtualHosts")
        FailedGetAttributeMsg ["amqp-abc:vh1", "$.Data.VirtualHosts"])) ∧
    (DescribeAmqpVirtualHost "cn-hangzhou" none "amqp-abc:vh1"
        [Except.ok [("Data", JsonVal.obj [("VirtualHosts", JsonVal.arr [])])]]).2 =
      .ret none (some (.wrapf (.goErr (GetNotFoundMessage "Amqp" "amqp-abc:vh1"))
        NotFoundWithResponse [])) :=
  ⟨describe_jsonpath_missing_or_empty.1 "cn-hangzhou" "amqp-abc:vh1" "amqp-abc"
      "vh1" _ "unknown key Data" _ rfl rfl,
   describe_jsonpath_missing_or_empty.2 "cn-hangzhou" "amqp-abc:vh1" "amqp-abc"
      "vh1" _ _ rfl rfl⟩

/-- Counterexample for C6: compose-then-parse is not the identity on
every pair — when the first component itself contains a colon, the
composed id splits into three parts and parsing fails instead of
recovering the pair. -/
theorem compose_parse_not_identity :
    ParseResourceId (composeTrafficMirrorRuleId "x:y" "z") 2 ≠
      Except.ok ["x:y", "z"] := by
  intro h
  have h2 := h
  rw [show ParseResourceId (composeTrafficMirrorRuleId "x:y" "z") 2 =
    Except.error (.invalidResourceId "x:y:z" 2 3) from rfl] at h2
  exact Except.noConfusion h2

/-- Claim C6 (amended): the exported id of a VPC traffic-mirror-filter
ingress rule is the filter id and rule id joined with a colon, and for
components that themselves contain no colon — as the cloud ids do —
parsing the composed id recovers exactly the two components. -/
theorem compose_parse_roundtrip (a b : String)
    (ha : ':' ∉ a.toList) (hb : ':' ∉ b.toList) :
    ParseResourceId (composeTrafficMirrorRuleId a b) 2 = .ok [a, b] := by
  have hdata : (a ++ ":" ++ b).toList = a.toList ++ ':' :: b.toList := by
    show (a ++ ":" ++ b).data = a.data ++ ':' :: b.data
    rw [data_append, data_append, List.append_assoc]
    rfl
  unfold ParseResourceId strSplit composeTrafficMirrorRuleId
  rw [hdata, splitChars_append_sep ':' _ _ ha, splitChars_no_sep ':' _ hb]
  rfl

/-- Witness for C6 (amended): a realistic filter id and rule id, both
colon-free, round-trip through compose and parse. -/
theorem compose_parse_roundtrip_witness :
    ParseResourceId (composeTrafficMirrorRuleId "tmf-abc123" "tmr-xyz789") 2 =
      .ok ["tmf-abc123", "tmr-xyz789"] :=
  compose_parse_roundtrip "tmf-abc123" "tmr-xyz789" (by decide) (by decide)

/-- Claim C7: on every error path of `DescribeAmqpVirtualHost` — client
construction failure, id parse failure, terminal request error, missing
jsonpath and not-found — the returned error was produced by `WrapError`
or `WrapErrorf`; no unwrapped SDK error reaches the caller. -/
theorem describe_errors_always_wrapped
    (regionId : String) (clientErr : Option GoError) (id : String)
    (pages : List (Except SdkError JsonObj)) (o : Option JsonObj) (e : GoError)
    (h : (DescribeAmqpVirtualHost regionId clientErr id pages).2 = .ret o (some e)) :
    isWrapped e = true := by
  unfold DescribeAmqpVirtualHost at h
  cases clientErr with
  | some ce =>
    injection h with ho he
    injection he with he2
    rw [← he2]
    rfl
  | none =>
    cases hp : ParseResourceId id 2 with
    | error pe =>
      rw [hp] at h
      injection h with ho he
      injection he with he2
      rw [← he2]
      rfl
    | ok parts =>
      rw [hp] at h
      rcases describeLoop_ret_sound id (parts.getD 1 "") pages _ o (some e) h with
        ⟨m, hm, hc⟩ | ⟨ho, er, her, hw⟩
      · exact Option.noConfusion hc
      · injection her with he2
        rw [he2]
        exact hw

/-- Witness for C7: at a parse failure the returned error is a
`WrapError` result. -/
theorem describe_errors_always_wrapped_witness :
    isWrapped (.wrap (.invalidResourceId "abc" 2 1)) = true :=
  describe_errors_always_wrapped "cn-hangzhou" none "abc" [] none
    (.wrap (.invalidResourceId "abc" 2 1)) rfl

/-- Claim C8: `DescribeAmqpVirtualHost` never returns both an absent
object and an absent error: whenever it returns, the result is
exclusively a present virtual-host map with no error, or no object with
a present error. -/
theorem describe_never_nil_nil
    (regionId : String) (clientErr : Option GoError) (id : String)
    (pages : List (Except SdkError JsonObj)) (o : Option JsonObj)
    (e : Option GoError)
    (h : (DescribeAmqpVirtualHost regionId clientErr id pages).2 = .ret o e) :
    (∃ m, o = some m ∧ e = none) ∨ (o = none ∧ ∃ er, e = some er) := by
  unfold DescribeAmqpVirtualHost at h
  cases clientErr with
  | some ce =>
    injection h with ho he
    exact Or.inr ⟨ho.symm, _, he.symm⟩
  | none =>
    cases hp : ParseResourceId id 2 with
    | error pe =>
      rw [hp] at h
      injection h with ho he
      exact Or.inr ⟨ho.symm, _, he.symm⟩
    | ok parts =>
      rw [hp] at h
      rcases describeLoop_ret_sound id (parts.getD 1 "") pages _ o e h with
        ⟨m, hm, hc⟩ | ⟨ho, er, her, hw⟩
      · exact Or.inl ⟨m, hm, hc⟩
      · exact Or.inr ⟨ho, er, her⟩

/-- Witness for C8: on a successful lookup the result is a present
object with no error, satisfying the exclusive disjunction. -/
theorem describe_never_nil_nil_witness :
    (∃ m, (some [("Name", JsonVal.str "v")] : Option JsonObj) = some m ∧
        (none : Option GoError) = none) ∨
      ((some [("Name", JsonVal.str "v")] : Option JsonObj) = none ∧
        ∃ er, (none : Option GoError) = some er) :=
  describe_never_nil_nil "cn-hangzhou" none "amqp-abc:v"
    [Except.ok [("Data", JsonVal.obj [("VirtualHosts",
      JsonVal.arr [JsonVal.obj [("Name", JsonVal.str "v")]])])]]
    (some [("Name", JsonVal.str "v")]) none rfl

/-- Claim C9: pagination.  When a page has a non-empty virtual-host list
with no matching name and the response carries a non-empty string
NextToken, the same request is re-issued with that NextToken; when
NextToken is absent, empty or not a string the loop ends with the
not-found error; and a page with an empty list yields not-found at once
even when a NextToken is present. -/
theorem describe_pagination_behaviour :
    (∀ (id b : String) (req : Request) (idE : Bool) (response : JsonObj)
        (rest : List (Except SdkError JsonObj)) (l : List JsonVal) (t : String),
        jsonpathGet2 "Data" "VirtualHosts" response = .ok (.arr l) → l ≠ [] →
        findByName b l = .ok none →
        nextTokenStr response = some t → t ≠ "" →
        describeLoop id b req idE (Except.ok response :: rest) =
          (⟨"ListVirtualHosts", "GET", "2019-12-12", req⟩ ::
              (describeLoop id b (setKey req "NextToken" (.s t)) idE rest).1,
            (describeLoop id b (setKey req "NextToken" (.s t)) idE rest).2)) ∧
    (∀ (id b : String) (req : Request) (response : JsonObj)
        (rest : List (Except SdkError JsonObj)) (l : List JsonVal),
        jsonpathGet2 "Data" "VirtualHosts" response = .ok (.arr l) → l ≠ [] →
        findByName b l = .ok none →
        (nextTokenStr response = none ∨ nextTokenStr response = some "") →
        describeLoop id b req false (Except.ok response :: rest) =
          ([⟨"ListVirtualHosts", "GET", "2019-12-12", req⟩],
            .ret none (some (.wrapf (.goErr (GetNotFoundMessage "Amqp" id))
              NotFoundWithResponse [])))) ∧
    (∀ (id b : String) (req : Request) (response : JsonObj)
        (rest : List (Except SdkError JsonObj)),
        jsonpathGet2 "Data" "VirtualHosts" response = .ok (.arr []) →
        describeLoop id b req false (Except.ok response :: rest) =
          ([⟨"ListVirtualHosts", "GET", "2019-12-12", req⟩],
            .ret none (some (.wrapf (.goErr (GetNotFoundMessage "Amqp" id))
              NotFoundWithResponse [])))) := by
  refine ⟨?_, ?_, ?_⟩
  · intro id b req idE response rest l t hj hl hf ht hne
    have hlen : ¬ (l.length < 1) := by
      cases l with
      | nil => exact absurd rfl hl
      | cons x xs => simp
    rw [describeLoop]
    simp only [describeStep, hj, if_neg hlen, hf, ht, if_neg hne]
  · intro id b req response rest l hj hl hf hnt
    have hlen : ¬ (l.length < 1) := by
      cases l with
      | nil => exact absurd rfl hl
      | cons x xs => simp
    rw [describeLoop]
    rcases hnt with hnt | hnt
    · simp only [describeStep, hj, if_neg hlen, hf, hnt]
      rfl
    · simp only [describeStep, hj, if_neg hlen, hf, hnt]
      rfl
  · intro id b req response rest hj
    rw [describeLoop]
    simp only [describeStep, hj]
    rfl

/-- Witness for C9: a no-match page with NextToken `tok` re-issues the
request with that token; the same page without a NextToken yields
not-found; and an empty-list page yields not-found even though a
NextToken is present. -/
theorem describe_pagination_behaviour_witness :
    describeLoop "amqp-abc:vh9" "vh9"
        [("RegionId", .s "cn-hangzhou")] false
        (Except.ok [("Data", JsonVal.obj [("VirtualHosts",
            JsonVal.arr [JsonVal.obj [("Name", JsonVal.str "other")]])]),
          ("NextToken", JsonVal.str "tok")] :: []) =
      (⟨"ListVirtualHosts", "GET", "2019-12-12",
          [("RegionId", .s "cn-hangzhou")]⟩ ::
          (describeLoop "amqp-abc:vh9" "vh9"
            (setKey [("RegionId", .s "cn-hangzhou")] "NextToken" (.s "tok"))
            false []).1,
        (describeLoop "amqp-abc:vh9" "vh9"
          (setKey [("RegionId", .s "cn-hangzhou")] "NextToken" (.s "tok"))
          false []).2) ∧
    describeLoop "amqp-abc:vh9" "vh9"
        [("RegionId", .s "cn-hangzhou")] false
        (Except.ok [("Data", JsonVal.obj [("VirtualHosts",
            JsonVal.arr [JsonVal.obj [("Name", JsonVal.str "other")]])])] :: []) =
      ([⟨"ListVirtualHosts", "GET", "2019-12-12",
          [("RegionId", .s "cn-hangzhou")]⟩],
        .ret none (some (.wrapf
          (.goErr (GetNotFoundMessage "Amqp" "amqp-abc:vh9"))
          NotFoundWithResponse []))) ∧
    describeLoop "amqp-abc:vh9" "vh9"
        [("RegionId", .s "cn-hangzhou")] false
        (Except.ok [("Data", JsonVal.obj [("VirtualHosts", JsonVal.arr [])]),
          ("NextToken", JsonVal.str "tok")] :: []) =
      ([⟨"ListVirtualHosts", "GET", "2019-12-12",
          [("RegionId", .s "cn-hangzhou")]⟩],
        .ret none (some (.wrapf
          (.goErr (GetNotFoundMessage "Amqp" "amqp-abc:vh9"))
          NotFoundWithResponse []))) :=
  ⟨describe_pagination_behaviour.1 "amqp-abc:vh9" "vh9"
      [("RegionId", .s "cn-hangzhou")] false _ [] _ "tok" rfl
      (List.cons_ne_nil _ _) rfl rfl (by decide),
   describe_pagination_behaviour.2.1 "amqp-abc:vh9" "vh9"
      [("RegionId", .s "cn-hangzhou")] _ [] _ rfl
      (List.cons_ne_nil _ _) rfl (Or.inl rfl),
   describe_pagination_behaviour.2.2 "amqp-abc:vh9" "vh9"
      [("RegionId", .s "cn-hangzhou")] _ [] rfl⟩

end Alicloud
